import Mathlib

/-!
Verification of the GDP six-hourly ingestion pipeline (`src/data/gdp6h.py`).

The Python module is shallowly embedded below.  Floating-point data values
are modelled by `PyFloat`: an exact rational for finite values, plus the two
infinities and NaN.  Machine integers are modelled as `Int` with explicit
wrap-around where numpy performs a fixed-width cast.  Strings are Lean
`String`s, operated on through their character lists.
-/

/-- Model of a Python/numpy floating-point scalar: a finite value is kept as
an exact rational, and the non-finite values (`inf`, `-inf`, `nan`) are
explicit constructors.  `inf true` is `+inf`, `inf false` is `-inf`. -/
inductive PyFloat where
  | fin (q : ℚ)
  | inf (pos : Bool)
  | nan
deriving DecidableEq, Repr

/-- Model of `np.isnan` on a scalar. -/
def isnan : PyFloat → Bool
  | .nan => true
  | _ => false

/-- Model of `pd.isnull` on a float scalar (true exactly for NaN). -/
def isnull (x : PyFloat) : Bool := isnan x

/-- Model of `np.isfinite` on a scalar. -/
def isfinite : PyFloat → Bool
  | .fin _ => true
  | _ => false

/-- Model of `np.isclose` with numpy's default tolerances
`rtol = 1e-05`, `atol = 1e-08`: for finite `a`, `b` it decides
`|a - b| <= atol + rtol * |b|`; equal infinities are close, and any
comparison involving NaN (or an infinity against a finite value) is not. -/
def isclose : PyFloat → PyFloat → Bool
  | .fin a, .fin b => |a - b| ≤ 1 / 100000000 + (1 / 100000) * |b|
  | .inf s, .inf t => s = t
  | _, _ => false

/-- Python `a < b` on float scalars; any comparison with NaN is false. -/
def pyLt : PyFloat → PyFloat → Bool
  | .fin a, .fin b => a < b
  | .nan, _ => false
  | _, .nan => false
  | .inf s, .inf t => !s && t
  | .inf s, .fin _ => !s
  | .fin _, .inf t => t

/-- Python `a >= b` on float scalars; any comparison with NaN is false. -/
def pyGe : PyFloat → PyFloat → Bool
  | .fin a, .fin b => b ≤ a
  | .nan, _ => false
  | _, .nan => false
  | .inf s, .inf t => s || !t
  | .inf s, .fin _ => s
  | .fin _, .inf t => !t

/-- The out-of-band missing-data sentinel `-1e+34` used by the raw GDP files. -/
def neg1e34 : PyFloat := .fin (-(10 ^ 34))

/-- Embedding of `decode_date` (gdp6h.py:159-170): positions where the value
is close to `-1e34` or NaN are overwritten with NaN (`np.nan` standing for
`NaT` on an undecoded time axis); every other entry is kept. -/
def decode_date (t : List PyFloat) : List PyFloat :=
  t.map (fun x => if isclose x neg1e34 || isnan x then .nan else x)

/-- Embedding of `fill_values` (gdp6h.py:173-180): entries close to `-1e34`
or non-finite are replaced by `default`. -/
def fill_values (var : List PyFloat) (default : PyFloat) : List PyFloat :=
  var.map (fun x => if isclose x neg1e34 || !isfinite x then default else x)

/-- Decimal digit value of a character, if it is a digit. -/
def digitVal (c : Char) : Option Nat :=
  if c.toNat ≥ 48 && c.toNat ≤ 57 then some (c.toNat - 48) else none

/-- Split a leading run of decimal digits off a character list. -/
def spanDigits : List Char → List Nat × List Char
  | [] => ([], [])
  | c :: cs =>
    match digitVal c with
    | some d => let p := spanDigits cs; (d :: p.1, p.2)
    | none => ([], c :: cs)

/-- Numeric value of a digit list (most significant first). -/
def digitsToNat (ds : List Nat) : Nat := ds.foldl (fun acc d => acc * 10 + d) 0

/-- Is `c` ASCII whitespace (as stripped by Python `float`)? -/
def isPySpace (c : Char) : Bool :=
  c = ' ' || c = '\t' || c = '\n' || c = '\r' || c = '\x0c' || c = '\x0b'

/-- Parse an optional sign, returning `true` for negative. -/
def parseSign : List Char → Bool × List Char
  | '+' :: cs => (false, cs)
  | '-' :: cs => (true, cs)
  | cs => (false, cs)

/-- Mantissa of a Python float literal: `digits [. digits]` or `. digits`,
requiring at least one digit overall.  Returns the exact rational value. -/
def parseMantissa (cs : List Char) : Option (ℚ × List Char) :=
  let p := spanDigits cs
  match p.2 with
  | '.' :: rest =>
    let q := spanDigits rest
    if p.1 = [] && q.1 = [] then none
    else some ((digitsToNat p.1 : ℚ) + (digitsToNat q.1 : ℚ) / (10 ^ q.1.length), q.2)
  | _ => if p.1 = [] then none else some ((digitsToNat p.1 : ℚ), p.2)

/-- Optional exponent part `(e|E)[sign]digits` of a float literal; returns
the signed decimal exponent.  When no exponent marker is present, the
input is returned unchanged with exponent 0. -/
def parseExponent (cs : List Char) : Option (Int × List Char) :=
  match cs with
  | 'e' :: rest | 'E' :: rest =>
    let sp := parseSign rest
    let d := spanDigits sp.2
    if d.1 = [] then none
    else if sp.1 then some (-(digitsToNat d.1 : Int), d.2)
    else some ((digitsToNat d.1 : Int), d.2)
  | _ => some (0, cs)

/-- `q * 10 ^ e` for a signed exponent `e` (no-op for `e = 0`). -/
def scalePow10 (q : ℚ) (e : Int) : ℚ :=
  if e = 0 then q
  else if 0 ≤ e then q * 10 ^ e.toNat
  else q / 10 ^ (-e).toNat

/-- Case-insensitive match of `cs` against lowercase `word`. -/
def matchWord (word : List Char) (cs : List Char) : Option (List Char) :=
  match word, cs with
  | [], rest => some rest
  | w :: ws, c :: rest => if c.toLower = w then matchWord ws rest else none
  | _ :: _, [] => none

/-- Model of Python `float(str)`: strips ASCII whitespace, accepts an
optional sign followed by `inf`/`infinity`/`nan` (case-insensitive) or a
decimal literal with optional fraction and exponent.  Returns `none` where
Python raises `ValueError`.  (Underscore digit grouping, accepted by Python
3.6+, is not used by the GDP attribute strings and is not modelled.) -/
def pyFloatOfString (s : String) : Option PyFloat :=
  let cs := (s.data.dropWhile isPySpace).reverse.dropWhile isPySpace |>.reverse
  let sp := parseSign cs
  match matchWord ['i', 'n', 'f', 'i', 'n', 'i', 't', 'y'] sp.2 with
  | some [] => some (.inf (!sp.1))
  | _ =>
    match matchWord ['i', 'n', 'f'] sp.2 with
    | some [] => some (.inf (!sp.1))
    | _ =>
      match matchWord ['n', 'a', 'n'] sp.2 with
      | some [] => some .nan
      | _ =>
        match parseMantissa sp.2 with
        | none => none
        | some m =>
          match parseExponent m.2 with
          | some e =>
            if e.2 = [] then some (.fin (scalePow10 (if sp.1 then -m.1 else m.1) e.1))
            else none
          | none => none

/-- Embedding of `str_to_float` (gdp6h.py:183-195): `float(value)` with
`ValueError` and a NaN result both mapped to `default`. -/
def str_to_float (value : String) (default : PyFloat) : PyFloat :=
  match pyFloatOfString value with
  | none => default
  | some f => if isnan f then default else f

/-- Python slice `s[:-n]`: all but the last `n` characters (empty when the
string has at most `n` characters). -/
def strDropLast (s : String) (n : Nat) : String :=
  ⟨s.data.take (s.data.length - n)⟩

/-- Embedding of `cut_str` (gdp6h.py:198-207): the value truncated to at
most `max_length` characters (the `np.chararray` assignment keeps only the
first `max_length` bytes). -/
def cut_str (value : String) (max_length : Nat) : String :=
  ⟨value.data.take max_length⟩

/-- Embedding of `drogue_presence` (gdp6h.py:210-220).  `lost_time` is the
drogue-loss time as an (undecoded) float, `time` the per-observation time
array.  Python raises `IndexError` on an empty `time` (`time[-1]`); that
case, never exercised by the pipeline, is modelled as `[]`. -/
def drogue_presence (lost_time : PyFloat) (time : List PyFloat) : List Bool :=
  match time.getLast? with
  | none => []
  | some last =>
    if isnull lost_time || pyGe lost_time last then
      List.replicate time.length true
    else
      time.map (fun t => pyLt t lost_time)

/-- Number of days in a month of the proleptic Gregorian calendar. -/
def daysInMonth (y m : Nat) : Nat :=
  if m = 2 then
    if y % 4 = 0 && (y % 100 ≠ 0 || y % 400 = 0) then 29 else 28
  else if m = 4 || m = 6 || m = 9 || m = 11 then 30
  else 31

/-- Days from the civil epoch 1970-01-01 to the given Gregorian date
(Howard Hinnant's `days_from_civil`; all divisions below act on non-negative
arguments for the four-digit years produced by the `%Y` parser, so the
rounding convention is immaterial). -/
def daysFromCivil (y : Int) (m d : Nat) : Int :=
  let y := if m ≤ 2 then y - 1 else y
  let era := (if 0 ≤ y then y else y - 399) / 400
  let yoe := y - era * 400
  let mp := (m + 9) % 12
  let doy := (153 * mp + 2) / 5 + (d : Int) - 1
  let doe := yoe * 365 + yoe / 4 - yoe / 100 + doy
  era * 146097 + doe - 719468

/-- Take exactly `n` leading digits. -/
def takeDigits (n : Nat) (cs : List Char) : Option (Nat × List Char) :=
  match n, cs with
  | 0, rest => some (0, rest)
  | _ + 1, [] => none
  | k + 1, c :: rest =>
    match digitVal c with
    | none => none
    | some d =>
      match takeDigits k rest with
      | none => none
      | some p => some (d * 10 ^ k + p.1, p.2)

/-- Take one or two leading digits, preferring two then backtracking to one
if the longer match makes the rest of the pattern fail (the behaviour of the
regex alternations used by `strptime` for `%m`, `%d`, `%H`, `%M`). -/
def takeOneOrTwoDigits (cs : List Char) (k : List Char → Option Int) : Option (Nat × Int) :=
  match takeDigits 2 cs with
  | some p =>
    match k p.2 with
    | some v => some (p.1, v)
    | none =>
      match takeDigits 1 cs with
      | some q => match k q.2 with
        | some v => some (q.1, v)
        | none => none
      | none => none
  | none =>
    match takeDigits 1 cs with
    | some q => match k q.2 with
      | some v => some (q.1, v)
      | none => none
    | none => none

/-- Parse the tail `":%M"` of the format (one or two digits, end of input). -/
def parseMinuteTail : List Char → Option Int
  | ':' :: cs =>
    match takeOneOrTwoDigits cs (fun rest => if rest = [] then some 0 else none) with
    | some p => if p.1 ≤ 59 then some (p.1 : Int) else none
    | none => none
  | _ => none

/-- Parse `" %H:%M"` after the date part. -/
def parseTimeTail : List Char → Option Int
  | ' ' :: cs =>
    match takeOneOrTwoDigits cs parseMinuteTail with
    | some p => if p.1 ≤ 23 then some ((p.1 : Int) * 3600 + p.2 * 60) else none
    | none => none
  | _ => none

/-- Model of `pd.to_datetime(s, format="%Y/%m/%d %H:%M", errors="coerce")`
(gdp6h.py:49) for one string: a strict match of the format (`%Y` is four
digits; month, day, hour, minute are one or two digits and must denote a
valid calendar date and time of day), returning the timestamp as integer
seconds since 1970-01-01 00:00 UTC, and `none` (pandas `NaT`) when the
string does not parse.  (Coercion of dates outside pandas' nanosecond
`Timestamp` range is not modelled; directory-file dates lie inside it.) -/
def to_datetime_coerce (s : String) : Option Int :=
  match takeDigits 4 s.data with
  | none => none
  | some y =>
    match y.2 with
    | '/' :: cs =>
      let dayTail := fun (m : Nat) (rest : List Char) =>
        match rest with
        | '/' :: ds =>
          match takeOneOrTwoDigits ds parseTimeTail with
          | some p =>
            if 1 ≤ p.1 && p.1 ≤ daysInMonth y.1 m then
              some (daysFromCivil (y.1 : Int) m p.1 * 86400 + p.2)
            else none
          | none => none
        | _ => none
      -- month: try two digits, backtracking to one if the rest fails
      match takeDigits 2 cs with
      | some p =>
        if 1 ≤ p.1 && p.1 ≤ 12 then
          match dayTail p.1 p.2 with
          | some v => some v
          | none =>
            match takeDigits 1 cs with
            | some q => if 1 ≤ q.1 && q.1 ≤ 12 then dayTail q.1 q.2 else none
            | none => none
        else
          match takeDigits 1 cs with
          | some q => if 1 ≤ q.1 && q.1 ≤ 12 then dayTail q.1 q.2 else none
          | none => none
      | none =>
        match takeDigits 1 cs with
        | some q => if 1 ≤ q.1 && q.1 ≤ 12 then dayTail q.1 q.2 else none
        | none => none
    | _ => none

/-- One raw row of a `dirfl_*.dat` directory file: the fifteen
whitespace-delimited columns as read by `pd.read_csv` (gdp6h.py:28),
before the date+time column pairs are joined. -/
structure RawDirRow where
  f0 : String
  f1 : String
  f2 : String
  f3 : String
  f4 : String
  f5 : String
  f6 : String
  f7 : String
  f8 : String
  f9 : String
  f10 : String
  f11 : String
  f12 : String
  f13 : String
  f14 : String
deriving DecidableEq, Repr

/-- One parsed directory row after the column manipulation of
`parse_directory_file` (gdp6h.py:30-49): columns 4+5, 8+9 and 12+13 are
joined with a space and parsed as timestamps with `errors="coerce"`
(`none` = pandas `NaT`); the remaining columns are carried through
unchanged (their numeric dtype inference by `read_csv` is outside the
scope of the claims and left at the string level). -/
structure DirectoryRecord where
  ID : String
  WMO_number : String
  program_number : String
  buoys_type : String
  Deployment_date : Option Int
  Deployment_lat : String
  Deployment_lon : String
  End_date : Option Int
  End_lat : String
  End_lon : String
  Drogue_off_date : Option Int
  death_code : String
deriving DecidableEq, Repr

/-- Embedding of the per-row work of `parse_directory_file`
(gdp6h.py:14-50).  `errors="coerce"` makes the three date parses total:
a malformed field yields `none`, never an exception, and the other
columns of the row are still produced. -/
def parse_directory_row (r : RawDirRow) : DirectoryRecord :=
  { ID := r.f0
    WMO_number := r.f1
    program_number := r.f2
    buoys_type := r.f3
    Deployment_date := to_datetime_coerce (r.f4 ++ " " ++ r.f5)
    Deployment_lat := r.f6
    Deployment_lon := r.f7
    End_date := to_datetime_coerce (r.f8 ++ " " ++ r.f9)
    End_lat := r.f10
    End_lon := r.f11
    Drogue_off_date := to_datetime_coerce (r.f12 ++ " " ++ r.f13)
    death_code := r.f14 }

/-- Embedding of `order_by_date` (gdp6h.py:80-89).  `dfIDs` is the `ID`
column of the module-level DataFrame `df` — the concatenated directory
files sorted ascending by `Deployment_date` (gdp6h.py:76-77).  The numpy
expression `df.ID[np.where(np.in1d(df.ID, idx))[0]].values` keeps exactly
the entries of `df.ID` that occur in `idx`, in `df`'s own order. -/
def order_by_date (dfIDs : List Int) (idx : List Int) : List Int :=
  dfIDs.filter (fun i => decide (i ∈ idx))

/-- 2^32, the modulus of the 32-bit Mersenne Twister arithmetic. -/
def mtMod : Nat := 4294967296

/-- State of numpy's legacy MT19937 generator: the 624-word key and the
position of the next word to emit. -/
structure MTState where
  key : Array Nat
  pos : Nat
deriving Repr

/-- Key-initialisation loop of `mt19937_seed` (numpy
`src/mt19937/mt19937.c`): `key[p] = s_p` with
`s_{p+1} = (1812433253 * (s_p XOR (s_p >> 30)) + p + 1) mod 2^32`. -/
def mtSeedLoop : Nat → Nat → Array Nat → Array Nat
  | 0, _, acc => acc
  | n + 1, s, acc =>
    mtSeedLoop n ((1812433253 * (s ^^^ (s >>> 30)) + (acc.size + 1)) % mtMod) (acc.push s)

/-- `np.random.RandomState(seed)` for a plain non-negative integer seed:
`mt19937_seed` fills the key and sets `pos` past the end so that the first
draw regenerates the block. -/
def randomState (seed : Nat) : MTState :=
  ⟨mtSeedLoop 624 (seed % mtMod) #[], 624⟩

/-- One in-place block regeneration step of MT19937 at index `i`. -/
def mtTwistStep (k : Array Nat) (i : Nat) : Array Nat :=
  let y := ((k.getD i 0) &&& 2147483648) ||| ((k.getD ((i + 1) % 624) 0) &&& 2147483647)
  let v := ((k.getD ((i + 397) % 624) 0) ^^^ (y >>> 1)) ^^^ (if y &&& 1 = 1 then 2567483615 else 0)
  k.setD i v

/-- Full 624-word block regeneration of MT19937. -/
def mtGenBlock (k : Array Nat) : Array Nat :=
  (List.range 624).foldl mtTwistStep k

/-- MT19937 output tempering. -/
def mtTemper (x : Nat) : Nat :=
  let y := x ^^^ (x >>> 11)
  let y := y ^^^ ((y <<< 7) &&& 2636928640)
  let y := y ^^^ ((y <<< 15) &&& 4022730752)
  y ^^^ (y >>> 18)

/-- Draw the next tempered 32-bit word. -/
def mtNext (st : MTState) : Nat × MTState :=
  if st.pos ≥ 624 then
    let k := mtGenBlock st.key
    (mtTemper (k.getD 0 0), ⟨k, 1⟩)
  else
    (mtTemper (st.key.getD st.pos 0), ⟨st.key, st.pos + 1⟩)

/-- Smallest all-ones bit mask covering `v` (the mask computation of
numpy's `random_interval`). -/
def maskFor (v : Nat) : Nat :=
  let m := v ||| (v >>> 1)
  let m := m ||| (m >>> 2)
  let m := m ||| (m >>> 4)
  let m := m ||| (m >>> 8)
  m ||| (m >>> 16)

/-- Masked rejection loop of `random_interval`: draw a word, mask it, retry
while the value exceeds `maxv`.  The C loop is unbounded; the fuel bound
only affects runs longer than `fuel` rejections, which do not occur for the
inputs considered here (on exhaustion the in-range value 0 is returned). -/
def mtIntervalLoop : Nat → Nat → Nat → MTState → Nat × MTState
  | 0, _, _, st => (0, st)
  | f + 1, maxv, mask, st =>
    let p := mtNext st
    let v := p.1 &&& mask
    if v ≤ maxv then (v, p.2) else mtIntervalLoop f maxv mask p.2

/-- numpy `random_interval(state, maxv)`: uniform draw on `[0, maxv]`
(inclusive); `maxv = 0` consumes no randomness. -/
def mtInterval (maxv : Nat) (st : MTState) : Nat × MTState :=
  if maxv = 0 then (0, st) else mtIntervalLoop 1000 maxv (maskFor maxv) st

/-- Swap the entries of `l` at positions `i` and `j` (both values read from
the original list, as in the C swap of numpy's shuffle). Out-of-range
positions leave the list unchanged at that set. -/
def listSwap (l : List Nat) (i j : Nat) : List Nat :=
  (l.set i (l.getD j 0)).set j (l.getD i 0)

/-- Fisher–Yates loop of legacy `RandomState.shuffle`:
`for i in reversed(range(1, n)): j = random_interval(state, i); swap x[i], x[j]`.
The argument is the current index `i`; the loop stops when it reaches 0. -/
def shuffleLoop : Nat → List Nat → MTState → List Nat × MTState
  | 0, l, st => (l, st)
  | i + 1, l, st =>
    let p := mtInterval (i + 1) st
    shuffleLoop i (listSwap l (i + 1) p.1) p.2

/-- numpy legacy `RandomState.permutation(n)`: shuffle of `arange(n)`. -/
def np_permutation (n : Nat) (st : MTState) : List Nat :=
  (shuffleLoop (n - 1) (List.range n) st).1

/-- The sampling expression of `download` (gdp6h.py:133-134):
`rng = np.random.RandomState(42)` followed by
`sorted(rng.choice(ids, n, replace=False))`.  Legacy `choice` without
replacement takes the first `n` entries of a full permutation of the
population indices and gathers `ids` at those indices; Python `sorted`
is modelled by `mergeSort` with the `≤` comparison on integers. -/
def np_choice_sorted (ids : List Int) (n : Nat) : List Int :=
  let perm := np_permutation ids.length (randomState 42)
  (((perm.take n).map (fun k => ids.getD k 0)).mergeSort (fun a b => decide (a ≤ b)))

/-- The identifier-selection logic of `download` (gdp6h.py:115-134), up to
the point where the netCDF fetches start.  The first component records
whether `warnings.warn` fired.  `none` models `n_random_id=None`; Python's
truthiness test `if n_random_id:` also skips sampling for `0`. -/
def select_ids (ids : List Int) (n_random_id : Option Nat) : Bool × List Int :=
  match n_random_id with
  | none => (false, ids)
  | some n =>
    if n = 0 then (false, ids)
    else if ids.length < n then (true, ids)
    else (false, np_choice_sorted ids n)

/-- Embedding of `download` (gdp6h.py:115-156) at the identifier level:
resolve the candidate list (all known identifiers when `drifter_ids` is
`None`), apply the sampling logic, and return the warning flag together
with the fetched identifiers reordered by `order_by_date`.  The network
fetches themselves are modelled separately by `fetch_netcdf`. -/
def download (dfIDs all_drifter_ids : List Int) (drifter_ids : Option (List Int))
    (n_random_id : Option Nat) : Bool × List Int :=
  let ids := drifter_ids.getD all_drifter_ids
  let s := select_ids ids n_random_id
  (s.1, order_by_date dfIDs s.2)

/-- Behaviour of the remote server for one URL, as seen by
`urllib.request.urlretrieve`:
* `unreachable` — the connection fails before the local file is opened
  (DNS/connect error raised by `urlopen`);
* `transfer chunks none` — the payload arrives as `chunks` and the copy
  completes;
* `transfer chunks (some k)` — the transfer is interrupted after `k`
  blocks have already been copied into the local file. -/
inductive NetResult where
  | unreachable
  | transfer (chunks : List String) (failAfter : Option Nat)
deriving DecidableEq, Repr

/-- A local cache state: an association of path to file contents.  A new
write shadows any earlier entry for the same path. -/
def setFile (fs : List (String × String)) (p v : String) : List (String × String) :=
  (p, v) :: fs

/-- Model of `urllib.request.urlretrieve(url, file)`: `urlopen` first (an
unreachable host raises with no local effect), then the local file is
opened at its final path and the response is copied block by block — there
is no temporary file, so an interrupted copy leaves the blocks written so
far at `file`.  Returns the new cache and whether the call succeeded. -/
def urlretrieve (net : String → NetResult) (fs : List (String × String))
    (url file : String) : List (String × String) × Bool :=
  match net url with
  | .unreachable => (fs, false)
  | .transfer chunks none => (setFile fs file (String.join chunks), true)
  | .transfer chunks (some k) => (setFile fs file (String.join (chunks.take k)), false)

/-- Embedding of `fetch_netcdf` (gdp6h.py:107-112): if `file` is already a
file, do nothing; otherwise call `urlretrieve`.  The middle component
counts network retrieval attempts (0 or 1), the last reports success. -/
def fetch_netcdf (net : String → NetResult) (fs : List (String × String))
    (url file : String) : List (String × String) × Nat × Bool :=
  if (fs.lookup file).isSome then (fs, 0, true)
  else
    let r := urlretrieve net fs url file
    (r.1, 1, r.2)

/-- The collection-level attributes and per-observation arrays of one raw
`drifter_<id>.nc` file that the claims exercise, as loaded by
`xr.load_dataset(..., decode_times=False, decode_coords=False)`
(gdp6h.py:247-251).  `time` and `drogue_lost_date` hold the raw float
values of the single trajectory (`.data[0]` and scalar respectively). -/
structure RawFile where
  DeployingShip : String
  DeploymentStatus : String
  CurrentProgram : String
  ManufactureYear : String
  ManufactureMonth : String
  ManufactureVoltage : String
  FloatDiameter : String
  SubsfcFloatPresence : String
  DrogueType : String
  DrogueLength : String
  DrogueBallast : String
  DragAreaAboveDrogue : String
  DragAreaOfDrogue : String
  DrogueCenterDepth : String
  ID : Int
  time : List PyFloat
  drogue_lost_date : PyFloat
deriving Repr

/-- Truncation of a rational toward zero (the C behaviour of a
float-to-integer cast for in-range values). -/
def ratTrunc (q : ℚ) : Int := if 0 ≤ q then ⌊q⌋ else ⌈q⌉

/-- Wrap an integer into the signed 16-bit range. -/
def wrap16 (n : Int) : Int := (n + 32768) % 65536 - 32768

/-- Wrap an integer into the signed 32-bit range. -/
def wrap32 (n : Int) : Int := (n + 2147483648) % 4294967296 - 2147483648

/-- `np.int16` applied to a float scalar: truncation toward zero with
16-bit wrap-around.  The cast of a non-finite value is platform-dependent
in numpy (and unreachable through `str_to_float` with a finite default);
it is modelled as the minimal value. -/
def np_int16 : PyFloat → Int
  | .fin q => wrap16 (ratTrunc q)
  | _ => -32768

/-- `np.int32` applied to a float scalar (same conventions as `np_int16`). -/
def np_int32 : PyFloat → Int
  | .fin q => wrap32 (ratTrunc q)
  | _ => -2147483648

/-- `np.array([x], dtype="bool")` on a float scalar: any non-zero value —
including NaN and the infinities — is `True`. -/
def np_bool : PyFloat → Bool
  | .fin q => decide (q ≠ 0)
  | _ => true

/-- The fields of the normalized per-buoy record produced by `preprocess`
that the claims exercise: typed scalar attributes, the untouched
per-observation `time` axis, and the derived `ids` and `drogue_status`
arrays. -/
structure NormalizedRecord where
  DeployingShip : String
  DeploymentStatus : String
  CurrentProgram : Int
  ManufactureYear : Int
  ManufactureMonth : Int
  ManufactureVoltage : Int
  FloatDiameter : PyFloat
  SubsfcFloatPresence : Bool
  DrogueType : String
  DrogueLength : PyFloat
  DrogueBallast : PyFloat
  DragAreaAboveDrogue : PyFloat
  DragAreaOfDrogue : PyFloat
  DrogueCenterDepth : PyFloat
  ID : Int
  ids : List Int
  time : List PyFloat
  drogue_status : List Bool
deriving Repr

/-- Embedding of `preprocess` (gdp6h.py:233-466) on the fields above,
mirroring the source line by line:
* string attributes are truncated with `cut_str` (length 20, `DrogueType` 7);
* `CurrentProgram`, `ManufactureYear`, `ManufactureMonth` parse the whole
  attribute with `str_to_float` and default `-1`;
* `ManufactureVoltage` parses `ds.ManufactureVoltage[:-6]` with default
  `-1` and casts to `np.int16` (gdp6h.py:273-276, comment `# e.g. 56 V`);
* `FloatDiameter` parses `[:-3]`, `DrogueLength` `[:-2]`, `DrogueBallast`
  `[:-3]`, the drag areas `[:-4]`, `DrogueCenterDepth` `[:-2]`;
* `ids` repeats the identifier across the `obs` dimension;
* `drogue_status` is `drogue_presence(drogue_lost_date, time)`;
* the per-observation `time` array is carried through unchanged — neither
  `decode_date` nor `fill_values` is invoked anywhere in `preprocess`
  (attribute tables and coordinate marking do not alter the values). -/
def preprocess (ds : RawFile) : NormalizedRecord :=
  { DeployingShip := cut_str ds.DeployingShip 20
    DeploymentStatus := cut_str ds.DeploymentStatus 20
    CurrentProgram := np_int32 (str_to_float ds.CurrentProgram (.fin (-1)))
    ManufactureYear := np_int16 (str_to_float ds.ManufactureYear (.fin (-1)))
    ManufactureMonth := np_int16 (str_to_float ds.ManufactureMonth (.fin (-1)))
    ManufactureVoltage := np_int16 (str_to_float (strDropLast ds.ManufactureVoltage 6) (.fin (-1)))
    FloatDiameter := str_to_float (strDropLast ds.FloatDiameter 3) .nan
    SubsfcFloatPresence := np_bool (str_to_float ds.SubsfcFloatPresence .nan)
    DrogueType := cut_str ds.DrogueType 7
    DrogueLength := str_to_float (strDropLast ds.DrogueLength 2) .nan
    DrogueBallast := str_to_float (strDropLast ds.DrogueBallast 3) .nan
    DragAreaAboveDrogue := str_to_float (strDropLast ds.DragAreaAboveDrogue 4) .nan
    DragAreaOfDrogue := str_to_float (strDropLast ds.DragAreaOfDrogue 4) .nan
    DrogueCenterDepth := str_to_float (strDropLast ds.DrogueCenterDepth 2) .nan
    ID := ds.ID
    ids := List.replicate ds.time.length ds.ID
    time := ds.time
    drogue_status := drogue_presence ds.drogue_lost_date ds.time }

/-- A concrete raw file whose per-observation time array contains the
`-1e34` sentinel at index 1, with the attribute shapes of the examples in
the source comments. -/
def rawSentinel : RawFile :=
  { DeployingShip := "RV INVESTIGATOR"
    DeploymentStatus := "DEPLOYED"
    CurrentProgram := "1234"
    ManufactureYear := "2015"
    ManufactureMonth := "6"
    ManufactureVoltage := "56 V"
    FloatDiameter := "35.5 cm"
    SubsfcFloatPresence := "1"
    DrogueType := "SVP"
    DrogueLength := "4.8 m"
    DrogueBallast := "1.4 kg"
    DragAreaAboveDrogue := "10.66 m^2"
    DragAreaOfDrogue := "416.6 m^2"
    DrogueCenterDepth := "20.0 m"
    ID := 300234
    time := [PyFloat.fin 0, PyFloat.fin (-(10 ^ 34))]
    drogue_lost_date := PyFloat.nan }

/-- A concrete raw file with 3 observations, drogue loss at the 2nd
observation's time, and the unit-suffixed voltage attribute `"56 V"` —
the end-to-end example of the specification. -/
def raw56 : RawFile :=
  { DeployingShip := "RV INVESTIGATOR"
    DeploymentStatus := "DEPLOYED"
    CurrentProgram := "1234"
    ManufactureYear := "2015"
    ManufactureMonth := "6"
    ManufactureVoltage := "56 V"
    FloatDiameter := "35.5 cm"
    SubsfcFloatPresence := "1"
    DrogueType := "SVP"
    DrogueLength := "4.8 m"
    DrogueBallast := "1.4 kg"
    DragAreaAboveDrogue := "10.66 m^2"
    DragAreaOfDrogue := "416.6 m^2"
    DrogueCenterDepth := "20.0 m"
    ID := 300234
    time := [PyFloat.fin 0, PyFloat.fin 21600, PyFloat.fin 43200]
    drogue_lost_date := PyFloat.fin 21600 }

/-- A remote that always delivers the two-block payload `"AB" ++ "CD"` but
is interrupted after the first block. -/
def netCut : String → NetResult := fun _ => .transfer ["AB", "CD"] (some 1)

/-- A remote that delivers a one-block payload completely. -/
def netOk : String → NetResult := fun _ => .transfer ["payload"] none

/-- A cache that already holds the file `"d/drifter_1.nc"`. -/
def fsOne : List (String × String) := [("d/drifter_1.nc", "cached")]

/-- A concrete directory row whose three date+time column pairs are all
malformed (ISO dashes instead of the `%Y/%m/%d` slashes). -/
def badDateRow : RawDirRow :=
  { f0 := "300234", f1 := "1600512", f2 := "1234", f3 := "SVP"
    f4 := "2020-01-17", f5 := "12:00", f6 := "10.5", f7 := "-45.2"
    f8 := "not", f9 := "adate", f10 := "11.0", f11 := "-44.0"
    f12 := "", f13 := "", f14 := "3" }

/-! ### Supporting lemmas -/

theorem mtIntervalLoop_le (f maxv mask : Nat) (st : MTState) :
    (mtIntervalLoop f maxv mask st).1 ≤ maxv := by
  induction f generalizing st with
  | zero => exact Nat.zero_le _
  | succ f ih =>
    unfold mtIntervalLoop
    dsimp only
    split
    · assumption
    · exact ih _

theorem mtInterval_le (maxv : Nat) (st : MTState) : (mtInterval maxv st).1 ≤ maxv := by
  unfold mtInterval
  split
  · simp [*]
  · exact mtIntervalLoop_le _ _ _ _

theorem listSwap_length (l : List Nat) (i j : Nat) : (listSwap l i j).length = l.length := by
  simp [listSwap]

theorem getD_cons_swap_perm (t : List Nat) (j x : Nat) (hj : j < t.length) :
    List.Perm ((t.getD j 0) :: t.set j x) (x :: t) := by
  induction t generalizing j with
  | nil => simp at hj
  | cons a s ih =>
    cases j with
    | zero => simpa using List.Perm.swap x a s
    | succ j =>
      have hj' : j < s.length := by simpa using hj
      have h1 : List.Perm (s.getD j 0 :: a :: s.set j x) (a :: s.getD j 0 :: s.set j x) :=
        List.Perm.swap _ _ _
      have h2 : List.Perm (a :: s.getD j 0 :: s.set j x) (a :: x :: s) := (ih j hj').cons a
      have h3 : List.Perm (a :: x :: s) (x :: a :: s) := List.Perm.swap _ _ _
      simpa using (h1.trans h2).trans h3

theorem listSwap_perm (l : List Nat) (i j : Nat) (hi : i < l.length) (hj : j < l.length) :
    List.Perm (listSwap l i j) l := by
  induction l generalizing i j with
  | nil => simp at hi
  | cons a s ih =>
    cases i with
    | zero =>
      cases j with
      | zero => simp [listSwap]
      | succ j =>
        have hj' : j < s.length := by simpa using hj
        simpa [listSwap] using getD_cons_swap_perm s j a hj'
    | succ i =>
      cases j with
      | zero =>
        have hi' : i < s.length := by simpa using hi
        simpa [listSwap] using getD_cons_swap_perm s i a hi'
      | succ j =>
        have hi' : i < s.length := by simpa using hi
        have hj' : j < s.length := by simpa using hj
        simpa [listSwap] using (ih i j hi' hj').cons a

theorem shuffleLoop_perm (i : Nat) (l : List Nat) (st : MTState) (h : i < l.length) :
    List.Perm (shuffleLoop i l st).1 l := by
  induction i generalizing l st with
  | zero => exact List.Perm.refl l
  | succ i ih =>
    unfold shuffleLoop
    dsimp only
    have hj : (mtInterval (i + 1) st).1 < l.length :=
      Nat.lt_of_le_of_lt (mtInterval_le _ _) h
    have hlen : (listSwap l (i + 1) (mtInterval (i + 1) st).1).length = l.length :=
      listSwap_length _ _ _
    have hlt : i < (listSwap l (i + 1) (mtInterval (i + 1) st).1).length := by
      rw [hlen]; omega
    exact (ih _ _ hlt).trans (listSwap_perm l (i + 1) _ h hj)

theorem np_permutation_perm (n : Nat) (st : MTState) (h : 0 < n) :
    List.Perm (np_permutation n st) (List.range n) := by
  unfold np_permutation
  apply shuffleLoop_perm
  rw [List.length_range]
  omega

theorem shuffleLoop_length (i : Nat) (l : List Nat) (st : MTState) :
    (shuffleLoop i l st).1.length = l.length := by
  induction i generalizing l st with
  | zero => rfl
  | succ i ih =>
    unfold shuffleLoop
    dsimp only
    rw [ih, listSwap_length]

/-! ### Claims -/

/-- Claim C4: for every list of identifiers, `order_by_date` returns
exactly those input identifiers that appear in the canonical directory
table (identifiers not present are silently dropped), in the same relative
order as they appear in the canonical table (`dfIDs`, the `ID` column of
the deployment-date-sorted DataFrame); applied to the full identifier set
it returns exactly the canonical sequence. -/
theorem claim_C4 (dfIDs idx : List Int) :
    (order_by_date dfIDs idx).Sublist dfIDs ∧
    (∀ i : Int, i ∈ order_by_date dfIDs idx ↔ i ∈ dfIDs ∧ i ∈ idx) ∧
    order_by_date dfIDs dfIDs = dfIDs := by
  refine ⟨List.filter_sublist _, fun i => ?_, ?_⟩
  · simp [order_by_date]
  · simp [order_by_date]

/-- Claim C5: for every candidate identifier list and every sample size
strictly greater than the number of candidates, `download` sets the
warning flag and fetches the whole candidate set; the selection is total
(it never raises because of the oversized sample size). -/
theorem claim_C5 (dfIDs all_ids cand : List Int) (n : Nat) (h : cand.length < n) :
    download dfIDs all_ids (some cand) (some n) = (true, order_by_date dfIDs cand) ∧
    select_ids cand (some n) = (true, cand) := by
  have hn : ¬ n = 0 := by omega
  constructor
  · simp [download, select_ids, hn, h]
  · simp [select_ids, hn, h]

theorem claim_C5_witness :
    ([1600512, 1600513] : List Int).length < 5 ∧
    select_ids [1600512, 1600513] (some 5) = (true, [1600512, 1600513]) :=
  ⟨by decide, (claim_C5 [] [] [1600512, 1600513] 5 (by decide)).2⟩

/-- Claim C10: calling `download` with `n_random_id = 0` behaves exactly
like giving no sample size at all — Python's truthiness test
`if n_random_id:` is false for `0` — so no sampling is performed, no
warning is emitted, and the whole candidate set is fetched. -/
theorem claim_C10 (dfIDs all_ids cand : List Int) :
    download dfIDs all_ids (some cand) (some 0) = download dfIDs all_ids (some cand) none ∧
    select_ids cand (some 0) = (false, cand) ∧
    select_ids cand none = (false, cand) := by
  refine ⟨?_, rfl, rfl⟩
  simp [download, select_ids]

/-- Claim C9: row parsing of a directory file never raises on a malformed
date+time pair: `errors="coerce"` maps each of the deployment, end and
drogue-loss timestamps that fails to parse to `none` (pandas `NaT`, not
zero), and the remaining columns of the row are still produced. -/
theorem claim_C9 (r : RawDirRow) :
    ((parse_directory_row r).ID = r.f0 ∧
     (parse_directory_row r).WMO_number = r.f1 ∧
     (parse_directory_row r).program_number = r.f2 ∧
     (parse_directory_row r).buoys_type = r.f3 ∧
     (parse_directory_row r).Deployment_lat = r.f6 ∧
     (parse_directory_row r).Deployment_lon = r.f7 ∧
     (parse_directory_row r).End_lat = r.f10 ∧
     (parse_directory_row r).End_lon = r.f11 ∧
     (parse_directory_row r).death_code = r.f14) ∧
    (to_datetime_coerce (r.f4 ++ " " ++ r.f5) = none →
      (parse_directory_row r).Deployment_date = none ∧
      (parse_directory_row r).Deployment_date ≠ some 0) ∧
    (to_datetime_coerce (r.f8 ++ " " ++ r.f9) = none →
      (parse_directory_row r).End_date = none ∧
      (parse_directory_row r).End_date ≠ some 0) ∧
    (to_datetime_coerce (r.f12 ++ " " ++ r.f13) = none →
      (parse_directory_row r).Drogue_off_date = none ∧
      (parse_directory_row r).Drogue_off_date ≠ some 0) := by
  refine ⟨⟨rfl, rfl, rfl, rfl, rfl, rfl, rfl, rfl, rfl⟩, ?_, ?_, ?_⟩ <;>
    intro h <;> simp [parse_directory_row, h]

theorem claim_C9_witness :
    to_datetime_coerce (badDateRow.f4 ++ " " ++ badDateRow.f5) = none ∧
    (parse_directory_row badDateRow).Deployment_date = none ∧
    (parse_directory_row badDateRow).End_date = none ∧
    (parse_directory_row badDateRow).Drogue_off_date = none :=
  ⟨by decide,
   ((claim_C9 badDateRow).2.1 (by decide)).1,
   ((claim_C9 badDateRow).2.2.1 (by decide)).1,
   ((claim_C9 badDateRow).2.2.2 (by decide)).1⟩

/-- Claim C3: for a drogue-loss timestamp `L` and an ascending, non-empty
observation-time sequence `T`, `drogue_presence` returns all-true when `L`
is unknown (NaN) or `L ≥ T[last]`; otherwise, when `L = T[0]` every entry
is false, and when `T[0] < L < T[last]` entry `i` is true exactly when
`T[i] < L` (true strictly before `L`, false from `L` onward). -/
theorem claim_C3 (L : ℚ) (T : List ℚ) (h : T ≠ []) (hs : List.Sorted (· ≤ ·) T) :
    (drogue_presence PyFloat.nan (T.map PyFloat.fin) = List.replicate T.length true) ∧
    (T.getLast h ≤ L →
      drogue_presence (PyFloat.fin L) (T.map PyFloat.fin) = List.replicate T.length true) ∧
    (L = T.head h → L < T.getLast h →
      ∀ b ∈ drogue_presence (PyFloat.fin L) (T.map PyFloat.fin), b = false) ∧
    (T.head h < L → L < T.getLast h → ∀ i : Nat,
      (drogue_presence (PyFloat.fin L) (T.map PyFloat.fin))[i]? =
        (T[i]?).map (fun q => decide (q < L))) := by
  have hlast : (T.map PyFloat.fin).getLast? = some (PyFloat.fin (T.getLast h)) := by
    rw [List.getLast?_map, List.getLast?_eq_getLast _ h, Option.map_some']
  refine ⟨?_, ?_, ?_, ?_⟩
  · simp [drogue_presence, hlast, isnull, isnan]
  · intro hge
    simp [drogue_presence, hlast, isnull, isnan, pyGe, hge]
  · intro hhead hlt
    have hge : ¬ (T.getLast h ≤ L) := not_le.mpr hlt
    simp only [drogue_presence, hlast, isnull, isnan, pyGe, Bool.false_or]
    rw [if_neg (by simpa using hge)]
    intro b hb
    simp only [List.map_map, List.mem_map, Function.comp] at hb
    obtain ⟨q, hq, rfl⟩ := hb
    have : T.head h ≤ q := by
      obtain ⟨a, t, rfl⟩ := List.exists_cons_of_ne_nil h
      rcases List.mem_cons.mp hq with rfl | hmem
      · simp
      · simpa using (List.sorted_cons.mp hs).1 q hmem
    simp only [pyLt, decide_eq_false_iff_not, not_lt]
    rw [hhead]
    exact this
  · intro _ hlt i
    have hge : ¬ (T.getLast h ≤ L) := not_le.mpr hlt
    simp only [drogue_presence, hlast, isnull, isnan, pyGe, Bool.false_or]
    rw [if_neg (by simpa using hge)]
    simp only [List.map_map, List.getElem?_map]
    congr 1

theorem claim_C3_witness :
    List.Sorted (· ≤ ·) ([0, 21600, 43200] : List ℚ) ∧
    drogue_presence PyFloat.nan (([0, 21600, 43200] : List ℚ).map PyFloat.fin) =
      List.replicate 3 true ∧
    (∀ b ∈ drogue_presence (PyFloat.fin 0) (([0, 21600, 43200] : List ℚ).map PyFloat.fin),
      b = false) ∧
    (drogue_presence (PyFloat.fin 21600) (([0, 21600, 43200] : List ℚ).map PyFloat.fin))[1]? =
      ((([0, 21600, 43200] : List ℚ))[1]?).map (fun q => decide (q < 21600)) :=
  ⟨by decide,
   (claim_C3 21600 [0, 21600, 43200] (by decide) (by decide)).1,
   (claim_C3 0 [0, 21600, 43200] (by decide) (by decide)).2.2.1 (by decide) (by decide),
   (claim_C3 21600 [0, 21600, 43200] (by decide) (by decide)).2.2.2 (by decide) (by decide) 1⟩

/-- Claim C6: `fetch_netcdf` is idempotent with respect to the cache.  If
the local path already exists the call is a no-op; consequently, whenever
the remote answers (the retrieval opens the local file, even if the copy
is then interrupted), two consecutive calls with the same url and path
perform at most one network retrieval, and contents already cached at the
path are never overwritten. -/
theorem claim_C6 (net : String → NetResult) (fs : List (String × String))
    (url file v : String) (hnet : net url ≠ NetResult.unreachable) :
    ((fs.lookup file).isSome → fetch_netcdf net fs url file = (fs, 0, true)) ∧
    ((fetch_netcdf net fs url file).2.1 +
      (fetch_netcdf net (fetch_netcdf net fs url file).1 url file).2.1 ≤ 1) ∧
    (fs.lookup file = some v →
      (fetch_netcdf net (fetch_netcdf net fs url file).1 url file).1.lookup file = some v) := by
  by_cases hpresent : (fs.lookup file).isSome
  · refine ⟨fun _ => by simp [fetch_netcdf, hpresent], ?_, ?_⟩
    · simp [fetch_netcdf, hpresent]
    · intro hv
      simp [fetch_netcdf, hpresent, hv]
  · refine ⟨fun hp => absurd hp hpresent, ?_, ?_⟩
    · cases htr : net url with
      | unreachable => exact absurd htr hnet
      | transfer chunks fa =>
        cases fa <;>
          simp [fetch_netcdf, hpresent, urlretrieve, htr, setFile, List.lookup]
    · intro hv
      exact absurd (Option.isSome_iff_exists.mpr ⟨v, hv⟩) hpresent

theorem claim_C6_witness :
    netOk "u" ≠ NetResult.unreachable ∧
    fetch_netcdf netOk fsOne "u" "d/drifter_1.nc" = (fsOne, 0, true) :=
  ⟨by decide,
   (claim_C6 netOk fsOne "u" "d/drifter_1.nc" "cached" (by decide)).1 (by decide)⟩

/-- Claim C7 counterexample: with an empty cache and a transfer that is
interrupted after its first block, `fetch_netcdf` reports failure yet
leaves the partial payload `"AB"` (not the full `"ABCD"`) at the cache
location — refuting the claim that a failed or interrupted retrieval never
leaves a partial file there (there is no temp-file-then-rename pattern in
`urlretrieve`). -/
theorem claim_C7_cex :
    (fetch_netcdf netCut [] "u" "f").2.2 = false ∧
    (fetch_netcdf netCut [] "u" "f").1.lookup "f" = some "AB" ∧
    ("AB" : String) ≠ "ABCD" := by
  refine ⟨rfl, ?_, by decide⟩
  decide

/-- Claim C7 (amended): when the local path does not exist, `fetch_netcdf`
writes the payload directly to the local path — the full payload on
success, and on an interrupted transfer the prefix of blocks copied so
far, which remains as a partial file at the cache location. -/
theorem claim_C7 (net : String → NetResult) (fs : List (String × String))
    (url file : String) (chunks : List String) (k : Nat)
    (habsent : fs.lookup file = none) :
    (net url = NetResult.transfer chunks none →
      (fetch_netcdf net fs url file).2.2 = true ∧
      (fetch_netcdf net fs url file).1.lookup file = some (String.join chunks)) ∧
    (net url = NetResult.transfer chunks (some k) →
      (fetch_netcdf net fs url file).2.2 = false ∧
      (fetch_netcdf net fs url file).1.lookup file = some (String.join (chunks.take k))) := by
  have hpresent : ¬ (fs.lookup file).isSome := by simp [habsent]
  constructor
  · intro htr
    simp [fetch_netcdf, hpresent, urlretrieve, htr, setFile]
  · intro htr
    simp [fetch_netcdf, hpresent, urlretrieve, htr, setFile]

theorem claim_C7_witness :
    (([] : List (String × String)).lookup "f" = none) ∧
    (fetch_netcdf netCut [] "u" "f").2.2 = false ∧
    (fetch_netcdf netCut [] "u" "f").1.lookup "f" = some (String.join (["AB", "CD"].take 1)) :=
  ⟨rfl, (claim_C7 netCut [] "u" "f" ["AB", "CD"] 1 rfl).2 rfl⟩

/-- Claim C1 counterexample: on a raw file whose time array holds the
sentinel `-1e34` at index 1 (a value `np.isclose` to the out-of-band
sentinel and distinct from the missing marker NaN), `preprocess` returns
the time array with the sentinel still in place — normalize performs no
sentinel decoding on the per-observation arrays. -/
theorem claim_C1_cex :
    (preprocess rawSentinel).time[1]? = some (PyFloat.fin (-(10 ^ 34))) ∧
    isclose (PyFloat.fin (-(10 ^ 34))) neg1e34 = true ∧
    PyFloat.fin (-(10 ^ 34)) ≠ PyFloat.nan := by
  refine ⟨rfl, ?_, by simp⟩
  simp only [isclose, neg1e34, decide_eq_true_eq]
  norm_num

/-- Claim C1 (amended): `preprocess` returns the per-observation time
array unchanged — the sentinel-decoding helpers are never invoked by it —
while the helper `decode_date`, had it been applied, would replace every
entry close to `-1e34` or non-finite by the uniform missing marker NaN. -/
theorem claim_C1 (ds : RawFile) (t : List PyFloat) (i : Nat) (x : PyFloat) :
    ((preprocess ds).time = ds.time) ∧
    (t[i]? = some x → (isclose x neg1e34 || isnan x) = true →
      (decode_date t)[i]? = some PyFloat.nan) := by
  refine ⟨rfl, fun hx hc => ?_⟩
  simp only [decode_date, List.getElem?_map, hx, Option.map_some']
  rw [if_pos hc]

theorem claim_C1_witness :
    (([PyFloat.fin 0, PyFloat.nan] : List PyFloat)[1]? = some PyFloat.nan) ∧
    (decode_date [PyFloat.fin 0, PyFloat.nan])[1]? = some PyFloat.nan :=
  ⟨rfl, (claim_C1 rawSentinel [PyFloat.fin 0, PyFloat.nan] 1 PyFloat.nan).2
    rfl (by decide)⟩

/-- Claim C2: on the raw file `raw56` whose voltage attribute is the
unit-suffixed string `"56 V"` (the very example in the source comment,
gdp6h.py:276), `preprocess` yields `ManufactureVoltage = -1` — the slice
`[:-6]` removes six of the four characters, leaving `""`, which fails to
parse and falls back to the `-1` fill value — instead of the `56` required
by the claim.  Stripping only the two-character unit suffix `" V"`, as
every sibling attribute does for its own suffix, would have produced `56`. -/
theorem claim_C2 :
    (preprocess raw56).ManufactureVoltage = -1 ∧
    ((-1 : Int) ≠ 56) ∧
    strDropLast "56 V" 6 = "" ∧
    str_to_float (strDropLast "56 V" 2) (PyFloat.fin (-1)) = PyFloat.fin 56 ∧
    np_int16 (PyFloat.fin 56) = 56 := by
  refine ⟨by decide, by decide, by decide, by decide, by decide⟩

/-- Claim C8: for every duplicate-free candidate list and every sample size
strictly between 0 and the candidate count, the sampling in `download` is
deterministic across runs — a fresh `RandomState` with the documented
constant seed 42 is created inside each call, so the selection is a pure
function of the inputs — and yields a without-replacement sample of
exactly `n` distinct candidate identifiers, sorted ascending. -/
theorem claim_C8 (ids : List Int) (n : Nat) (hn : 0 < n) (hlt : n < ids.length)
    (hnodup : ids.Nodup) :
    (select_ids ids (some n) = (false, np_choice_sorted ids n)) ∧
    (select_ids ids (some n) = select_ids ids (some n)) ∧
    List.Sorted (· ≤ ·) (np_choice_sorted ids n) ∧
    (np_choice_sorted ids n).Nodup ∧
    (np_choice_sorted ids n).length = n ∧
    (∀ x ∈ np_choice_sorted ids n, x ∈ ids) := by
  have hpop : 0 < ids.length := Nat.lt_of_le_of_lt (Nat.zero_le n) hlt
  have hperm : List.Perm (np_permutation ids.length (randomState 42)) (List.range ids.length) :=
    np_permutation_perm _ _ hpop
  have hpermlen : (np_permutation ids.length (randomState 42)).length = ids.length := by
    unfold np_permutation
    rw [shuffleLoop_length, List.length_range]
  have hmemlt : ∀ k ∈ (np_permutation ids.length (randomState 42)).take n, k < ids.length := by
    intro k hk
    have : k ∈ List.range ids.length := hperm.mem_iff.mp (List.mem_of_mem_take hk)
    exact List.mem_range.mp this
  have htakeNodup : ((np_permutation ids.length (randomState 42)).take n).Nodup :=
    (List.take_sublist n _).nodup (hperm.nodup_iff.mpr (List.nodup_range _))
  have hmapNodup :
      (((np_permutation ids.length (randomState 42)).take n).map (fun k => ids.getD k 0)).Nodup := by
    refine List.Nodup.map_on ?_ htakeNodup
    intro k1 hk1 k2 hk2 heq
    have h1 := hmemlt k1 hk1
    have h2 := hmemlt k2 hk2
    rw [List.getD_eq_getElem ids 0 h1, List.getD_eq_getElem ids 0 h2] at heq
    exact (hnodup.getElem_inj_iff).mp heq
  have hsortPerm :
      List.Perm
        ((((np_permutation ids.length (randomState 42)).take n).map
          (fun k => ids.getD k 0)).mergeSort (fun a b => decide (a ≤ b)))
        (((np_permutation ids.length (randomState 42)).take n).map (fun k => ids.getD k 0)) :=
    List.mergeSort_perm _ _
  have hchoice : np_choice_sorted ids n =
      (((np_permutation ids.length (randomState 42)).take n).map
        (fun k => ids.getD k 0)).mergeSort (fun a b => decide (a ≤ b)) := rfl
  refine ⟨?_, rfl, ?_, ?_, ?_, ?_⟩
  · have h0 : ¬ n = 0 := by omega
    have h1 : ¬ ids.length < n := by omega
    simp [select_ids, h0, h1]
  · have hs := @List.sorted_mergeSort Int (fun a b : Int => decide (a ≤ b))
      (fun a b c h1 h2 => by
        simp only [decide_eq_true_eq] at h1 h2 ⊢
        exact le_trans h1 h2)
      (fun a b => by
        simp only [Bool.or_eq_true, decide_eq_true_eq]
        exact le_total a b)
      (((np_permutation ids.length (randomState 42)).take n).map (fun k => ids.getD k 0))
    rw [hchoice]
    exact hs.imp (fun h => by simpa using h)
  · rw [hchoice]
    exact hsortPerm.nodup_iff.mpr hmapNodup
  · rw [hchoice, List.length_mergeSort, List.length_map, List.length_take, hpermlen]
    omega
  · intro x hx
    rw [hchoice] at hx
    have hx2 := hsortPerm.mem_iff.mp hx
    obtain ⟨k, hk, rfl⟩ := List.mem_map.mp hx2
    rw [List.getD_eq_getElem ids 0 (hmemlt k hk)]
    exact List.getElem_mem _

theorem claim_C8_witness :
    (0 < 2) ∧ ([1600512, 1600513, 1600514, 1600515, 1600516] : List Int).Nodup ∧
    select_ids [1600512, 1600513, 1600514, 1600515, 1600516] (some 2) =
      (false, np_choice_sorted [1600512, 1600513, 1600514, 1600515, 1600516] 2) ∧
    (np_choice_sorted [1600512, 1600513, 1600514, 1600515, 1600516] 2).Nodup ∧
    (np_choice_sorted [1600512, 1600513, 1600514, 1600515, 1600516] 2).length = 2 :=
  ⟨by decide, by decide,
   (claim_C8 [1600512, 1600513, 1600514, 1600515, 1600516] 2 (by decide) (by decide)
      (by decide)).1,
   (claim_C8 [1600512, 1600513, 1600514, 1600515, 1600516] 2 (by decide) (by decide)
      (by decide)).2.2.2.1,
   (claim_C8 [1600512, 1600513, 1600514, 1600515, 1600516] 2 (by decide) (by decide)
      (by decide)).2.2.2.2.1⟩

/-- Sanity anchor for the timestamp model: the epoch itself. -/
theorem to_datetime_coerce_epoch : to_datetime_coerce "1970/01/01 00:00" = some 0 := by decide

/-- Sanity anchor for the timestamp model: a mid-2022 instant (checked
against the Unix timestamp of 2022-07-15 13:30 UTC). -/
theorem to_datetime_coerce_jul2022 :
    to_datetime_coerce "2022/07/15 13:30" = some 1657891800 := by decide
